import Mathlib

/-!
# Verification of the DeskBike CSC metrics core

Shallow embedding of the cycling-speed-and-cadence (CSC) notification
processing of `custom_components/deskbike/sensor.py`
(`DeskBikeDataUpdateCoordinator`): the `_notification_handler` frame decoding
and metric accumulation, `_calculate_calories`, `_check_activity_timeout` and
`_check_daily_reset`.

Conventions of the embedding:
* Python floats are modelled as exact rationals (`ℚ`); `round(x, 1)` is
  modelled by `pyRound1` (round half to even, as Python's `round`).
* Timestamps (`dt_util.now()` values) are rationals counting seconds from an
  epoch placed at a local midnight, so `dt_util.start_of_local_day()` is
  `86400 * ⌊now / 86400⌋` and `timedelta(days=1)` is `86400` seconds.
* A raw notification is a `List ℕ` of byte values; `bytearray` elements are
  0..255, so byte reads are taken mod 256.
* The handler's early `return` on a suspicious wheel delta, and the paths on
  which `struct.unpack_from` or `now - None` raises an exception that the
  enclosing `try`/`except` swallows, all end processing at that point keeping
  every mutation already performed; `StepResult.done` models them.
-/

/-- The mutable coordinator state: the hardware shadow counters, the
activity/rollover bookkeeping fields, the configuration values, and the
`self._data` metrics dictionary of `DeskBikeDataUpdateCoordinator`. -/
structure DBState where
  lastWheelRev : ℕ
  lastWheelEvent : ℕ
  lastCrankRev : ℕ
  lastCrankEvent : ℕ
  wheelCircumference : ℚ
  weight : ℚ
  resistance : ℚ
  lastActivityCheck : Option ℚ
  lastActive : Option ℚ
  activityStartTime : Option ℚ
  dailyResetTime : ℚ
  speed : ℚ
  distance : ℚ
  dailyDistance : ℚ
  cadence : ℚ
  dailyActiveTime : ℚ
  totalActiveTime : ℚ
  dailyCalories : ℚ
  totalCalories : ℚ
  isActive : Bool
  dailyCrankRotations : ℚ
  totalCrankRotations : ℚ
  deriving DecidableEq

/-- The coordinator state as built by `__init__` together with the fresh-start
branch of `_restore_persistent_data`: all counters zero, shadow counters zero,
wheel circumference 2.096 m, weight 70 kg, resistance 100 % (the spec's
default), and the given daily reset marker. -/
def initState (resetTime : ℚ) : DBState where
  lastWheelRev := 0
  lastWheelEvent := 0
  lastCrankRev := 0
  lastCrankEvent := 0
  wheelCircumference := 2.096
  weight := 70
  resistance := 100
  lastActivityCheck := none
  lastActive := none
  activityStartTime := none
  dailyResetTime := resetTime
  speed := 0
  distance := 0
  dailyDistance := 0
  cadence := 0
  dailyActiveTime := 0
  totalActiveTime := 0
  dailyCalories := 0
  totalCalories := 0
  isActive := false
  dailyCrankRotations := 0
  totalCrankRotations := 0

/-- Byte `i` of a raw notification buffer; `bytearray` elements are 0..255. -/
def byteAt (data : List ℕ) (i : ℕ) : ℕ := data.getD i 0 % 256

/-- Little-endian unsigned 16-bit read, as `struct.unpack_from("<H", ...)`. -/
def u16le (data : List ℕ) (off : ℕ) : ℕ :=
  byteAt data off + 256 * byteAt data (off + 1)

/-- Little-endian unsigned 32-bit read, as `struct.unpack_from("<L", ...)`. -/
def u32le (data : List ℕ) (off : ℕ) : ℕ :=
  byteAt data off + 256 * byteAt data (off + 1) +
    65536 * byteAt data (off + 2) + 16777216 * byteAt data (off + 3)

/-- The event-time delta `(new - last) & 0xFFFF` of the Python handler
(Python's `&` on a possibly negative int is the nonnegative residue). -/
def eventDiff16 (last new : ℕ) : ℤ := ((new : ℤ) - last) % 65536

/-- Wheel revolution delta with uint32 wrap compensation, sensor.py lines
623-627: `new - last` when `new >= last`, else `(4294967295 - last) + new + 1`. -/
def wheelRevDiff (last new : ℕ) : ℤ :=
  if last ≤ new then (new : ℤ) - last else (4294967295 - (last : ℤ)) + new + 1

/-- Crank revolution delta with uint16 wrap compensation, sensor.py lines
660-664: `new - last` when `new >= last`, else `(65535 - last) + new + 1`. -/
def crankRevDiff (last new : ℕ) : ℤ :=
  if last ≤ new then (new : ℤ) - last else (65535 - (last : ℤ)) + new + 1

/-- Round a rational to the nearest integer, halves to even: the rounding of
Python's built-in `round` on exact values. -/
def roundHalfEven (q : ℚ) : ℤ :=
  if q - ⌊q⌋ = 1 / 2 then (if 2 ∣ ⌊q⌋ then ⌊q⌋ else ⌊q⌋ + 1) else round q

/-- Python's `round(x, 1)` over exact rationals. -/
def pyRound1 (q : ℚ) : ℚ := (roundHalfEven (10 * q) : ℚ) / 10

/-- MET selection by speed band, `_calculate_calories` lines 524-534. -/
def metForSpeed (speed : ℚ) : ℚ :=
  if speed < 16 then 4.0
  else if speed < 19 then 6.0
  else if speed < 22.5 then 8.0
  else if speed < 25.7 then 10.0
  else 12.0

/-- `_calculate_calories(speed, time_diff, resistance)` with the coordinator's
weight made explicit: `met * weight * (time_diff / 3600) * resistance / 100`. -/
def calculateCalories (weight speed timeDiff resistance : ℚ) : ℚ :=
  metForSpeed speed * weight * (timeDiff / 3600) * resistance / 100

/-- `_check_activity_timeout`: on the first ever call just records the check
time; afterwards, more than 3 seconds without activity zeroes speed and
cadence, clears `is_active` and clears `activity_start_time`. -/
def checkActivityTimeout (st : DBState) (now : ℚ) : DBState :=
  match st.lastActivityCheck with
  | none => { st with lastActivityCheck := some now }
  | some t =>
    if 3 < now - t then
      { st with speed := 0, cadence := 0, isActive := false, activityStartTime := none }
    else st

/-- `dt_util.start_of_local_day()` for an epoch placed at local midnight. -/
def startOfLocalDay (now : ℚ) : ℚ := 86400 * (⌊now / 86400⌋ : ℤ)

/-- `_check_daily_reset`: when `now` is past `daily_reset_time + 1 day`, zero
the four daily counters and move the reset marker to the start of the current
local day. -/
def checkDailyReset (st : DBState) (now : ℚ) : DBState :=
  if st.dailyResetTime + 86400 < now then
    { st with dailyDistance := 0, dailyActiveTime := 0, dailyCalories := 0,
              dailyCrankRotations := 0, dailyResetTime := startOfLocalDay now }
  else st

/-- Outcome of one section of the handler: `done` ends the whole invocation at
this state (the early `return` on a suspicious wheel delta, or a swallowed
exception), `cont` continues with the activity-detected flag. -/
inductive StepResult where
  | done (st : DBState)
  | cont (st : DBState) (activityDetected : Bool)
  deriving DecidableEq

/-- The state carried by a step outcome. -/
def StepResult.state : StepResult → DBState
  | .done st => st
  | .cont st _ => st

/-- The wheel section of `_notification_handler` (lines 614-652): unpack
`<LH` at offset 1 (a short buffer raises, swallowed as `done`), and when a
previous event time exists and the event delta is nonzero either bail out
early on a suspicious delta (> 1000) or, for in-range speeds `0 ≤ v ≤ 100`,
store the rounded speed and accumulate distance; the shadow counters advance
in every non-failing case. -/
def wheelStep (st : DBState) (data : List ℕ) : StepResult :=
  if 7 ≤ data.length then
    let wheelRevs := u32le data 1
    let wheelEvent := u16le data 5
    if st.lastWheelEvent ≠ 0 then
      if 0 < eventDiff16 st.lastWheelEvent wheelEvent then
        let timeDiff : ℚ := (eventDiff16 st.lastWheelEvent wheelEvent : ℚ) / 1024
        let revDiff := wheelRevDiff st.lastWheelRev wheelRevs
        if 1000 < revDiff then
          .done { st with lastWheelRev := wheelRevs, lastWheelEvent := wheelEvent }
        else
          let dist : ℚ := (revDiff : ℚ) * st.wheelCircumference
          let speed : ℚ := dist / timeDiff * 3.6
          if 0 ≤ speed ∧ speed ≤ 100 then
            .cont { st with speed := pyRound1 speed,
                            distance := st.distance + dist / 1000,
                            dailyDistance := st.dailyDistance + dist / 1000,
                            lastWheelRev := wheelRevs, lastWheelEvent := wheelEvent } true
          else
            .cont { st with lastWheelRev := wheelRevs, lastWheelEvent := wheelEvent } false
      else .cont { st with lastWheelRev := wheelRevs, lastWheelEvent := wheelEvent } false
    else .cont { st with lastWheelRev := wheelRevs, lastWheelEvent := wheelEvent } false
  else .done st

/-- The crank section of `_notification_handler` (lines 654-683): unpack `<HH`
at `off` (short buffer raises, swallowed as `done`), and when a previous event
time exists and the event delta is nonzero add the revolution delta to the
rotation counters only when it is `< 100`, but always compute and store the
cadence from that delta; the shadow counters advance in every non-failing
case, and a positive cadence marks activity. -/
def crankStep (st : DBState) (act : Bool) (data : List ℕ) (off : ℕ) : StepResult :=
  if off + 4 ≤ data.length then
    let crankRevs := u16le data off
    let crankEvent := u16le data (off + 2)
    if st.lastCrankEvent ≠ 0 then
      if 0 < eventDiff16 st.lastCrankEvent crankEvent then
        let revDiff := crankRevDiff st.lastCrankRev crankRevs
        let st1 :=
          if revDiff < 100 then
            { st with dailyCrankRotations := st.dailyCrankRotations + (revDiff : ℚ),
                      totalCrankRotations := st.totalCrankRotations + (revDiff : ℚ) }
          else st
        let timeDiff : ℚ := (eventDiff16 st.lastCrankEvent crankEvent : ℚ) / 1024
        let cadence : ℚ := (revDiff : ℚ) / timeDiff * 60
        .cont { st1 with cadence := pyRound1 cadence,
                         lastCrankRev := crankRevs, lastCrankEvent := crankEvent }
              (if 0 < cadence then true else act)
      else .cont { st with lastCrankRev := crankRevs, lastCrankEvent := crankEvent } act
    else .cont { st with lastCrankRev := crankRevs, lastCrankEvent := crankEvent } act
  else .done st

/-- Calorie accrual of lines 707-711: when the stored speed is positive, add
`_calculate_calories(speed, 1, resistance)` — a fixed 1-second slice — to the
daily and total calorie counters. -/
def addCalories (st : DBState) : DBState :=
  if 0 < st.speed then
    let c := calculateCalories st.weight st.speed 1 st.resistance
    { st with dailyCalories := st.dailyCalories + c, totalCalories := st.totalCalories + c }
  else st

/-- The activity section of `_notification_handler` (lines 686-713). With
activity: record `last_active`, set `is_active`, start activity timing or add
the measured `now - last_activity_check` to both active-time counters (a
missing `last_activity_check` would raise `TypeError`, swallowed as `done`),
record the check time, and accrue calories. Without activity: run the
inactivity-timeout check. -/
def activityStep (st : DBState) (act : Bool) (now : ℚ) : StepResult :=
  if act then
    let st1 := { st with lastActive := some now, isActive := true }
    match st1.activityStartTime with
    | none =>
      .cont (addCalories { st1 with activityStartTime := some now,
                                    lastActivityCheck := some now }) true
    | some _ =>
      match st1.lastActivityCheck with
      | none => .done st1
      | some t =>
        .cont (addCalories { st1 with dailyActiveTime := st1.dailyActiveTime + (now - t),
                                      totalActiveTime := st1.totalActiveTime + (now - t),
                                      lastActivityCheck := some now }) true
  else .cont (checkActivityTimeout st now) false

/-- `_notification_handler`: read the flag byte (an empty buffer raises,
swallowed with the state unchanged), run the wheel section if flag bit 0 is
set, the crank section if flag bit 1 is set (at offset 7 after wheel fields,
else 1), then the activity section, and finally the daily rollover check.
A `done` outcome of any section ends the invocation with that state. -/
def notificationHandler (st : DBState) (now : ℚ) (data : List ℕ) : DBState :=
  if data.length = 0 then st
  else
    let flags := byteAt data 0
    let wheelPresent := Nat.testBit flags 0
    let crankPresent := Nat.testBit flags 1
    match (if wheelPresent then wheelStep st data else .cont st false) with
    | .done s => s
    | .cont s1 act1 =>
      match (if crankPresent then crankStep s1 act1 data (if wheelPresent then 7 else 1)
             else .cont s1 act1) with
      | .done s => s
      | .cont s2 act2 =>
        match activityStep s2 act2 now with
        | .done s => s
        | .cont s3 _ => checkDailyReset s3 now

/-- A wheel-only CSC frame (flags byte 0x01) carrying the given cumulative
wheel revolution count and event time. -/
def mkWheelFrame (wr we : ℕ) : List ℕ :=
  1 :: (wr % 256 :: wr / 256 % 256 :: wr / 65536 % 256 :: wr / 16777216 % 256 ::
        we % 256 :: we / 256 % 256 :: [])

/-- A crank-only CSC frame (flags byte 0x02). -/
def mkCrankFrame (cr ce : ℕ) : List ℕ :=
  2 :: (cr % 256 :: cr / 256 % 256 :: ce % 256 :: ce / 256 % 256 :: [])

/-- A combined CSC frame (flags byte 0x03) with wheel then crank fields. -/
def mkCscFrame (wr we cr ce : ℕ) : List ℕ :=
  3 :: (wr % 256 :: wr / 256 % 256 :: wr / 65536 % 256 :: wr / 16777216 % 256 ::
        we % 256 :: we / 256 % 256 :: cr % 256 :: cr / 256 % 256 ::
        ce % 256 :: ce / 256 % 256 :: [])

/-! ## Evaluation helpers -/

/-- `pyRound1` evaluation: when `10 * q` lies strictly within half a unit of the
integer `n` (which covers every non-tie, and exact integers), the result is
`n / 10`. -/
lemma pyRound1_eval (q : ℚ) (n : ℤ) (h1 : (n : ℚ) - 1/2 < 10 * q) (h2 : 10 * q < (n : ℚ) + 1/2) :
    pyRound1 q = (n : ℚ) / 10 := by
  have hfloor : ⌊(10 : ℚ) * q + 1/2⌋ = n := by
    rw [Int.floor_eq_iff]
    constructor
    · linarith
    · linarith
  have hnotie : (10 : ℚ) * q - ⌊(10 : ℚ) * q⌋ ≠ 1/2 := by
    intro htie
    have hq : (10 : ℚ) * q = ⌊(10 : ℚ) * q⌋ + 1/2 := by linarith
    have h3' : ⌊(10 : ℚ) * q⌋ < n := by
      have : ((⌊(10 : ℚ) * q⌋ : ℤ) : ℚ) < (n : ℚ) := by linarith
      exact_mod_cast this
    have h4' : n < ⌊(10 : ℚ) * q⌋ + 1 := by
      have : ((n : ℤ) : ℚ) < ((⌊(10 : ℚ) * q⌋ + 1 : ℤ) : ℚ) := by push_cast; linarith
      exact_mod_cast this
    omega
  unfold pyRound1 roundHalfEven
  rw [if_neg hnotie, round_eq, hfloor]

lemma mkCscFrame_length (wr we cr ce : ℕ) : (mkCscFrame wr we cr ce).length = 11 := rfl

lemma u32le_mkCscFrame (wr we cr ce : ℕ) (h : wr < 4294967296) :
    u32le (mkCscFrame wr we cr ce) 1 = wr := by
  simp only [u32le, byteAt, mkCscFrame, List.getD_cons_zero, List.getD_cons_succ]
  omega

lemma u16le_mkCscFrame_event (wr we cr ce : ℕ) (h : we < 65536) :
    u16le (mkCscFrame wr we cr ce) 5 = we := by
  simp only [u16le, byteAt, mkCscFrame, List.getD_cons_zero, List.getD_cons_succ]
  omega

lemma u16le_mkCscFrame_crank (wr we cr ce : ℕ) (h : cr < 65536) :
    u16le (mkCscFrame wr we cr ce) 7 = cr := by
  simp only [u16le, byteAt, mkCscFrame, List.getD_cons_zero, List.getD_cons_succ]
  omega

lemma u16le_mkCscFrame_crankEvent (wr we cr ce : ℕ) (h : ce < 65536) :
    u16le (mkCscFrame wr we cr ce) 9 = ce := by
  simp only [u16le, byteAt, mkCscFrame, List.getD_cons_zero, List.getD_cons_succ]
  omega

/-! ## C1: wrap-compensated revolution deltas -/

/-- C1 (amended): with the previous counter in range, the wrap-compensated
wheel and crank revolution deltas are never negative; the wheel example
`last = 4294967290`, `new = 5` gives 11, and the crank example `last = 65530`,
`new = 4` gives 10 (not 9 as claimed). -/
theorem c1_wrap_deltas_amended (lw nw lc nc : ℕ) (hlw : lw ≤ 4294967295) (hlc : lc ≤ 65535) :
    0 ≤ wheelRevDiff lw nw ∧ 0 ≤ crankRevDiff lc nc ∧
    wheelRevDiff 4294967290 5 = 11 ∧ crankRevDiff 65530 4 = 10 := by
  refine ⟨?_, ?_, by decide, by decide⟩
  · unfold wheelRevDiff
    split <;> omega
  · unfold crankRevDiff
    split <;> omega

theorem c1_wrap_deltas_witness :
    0 ≤ wheelRevDiff 4294967290 5 ∧ 0 ≤ crankRevDiff 65530 4 ∧
    wheelRevDiff 4294967290 5 = 11 ∧ crankRevDiff 65530 4 = 10 :=
  c1_wrap_deltas_amended 4294967290 5 65530 4 (by decide) (by decide)

/-- C1 counterexample: the claimed crank wrap example value 9 is wrong; the
code's formula `(65535 - 65530) + 4 + 1` yields 10. -/
theorem c1_counterexample : crankRevDiff 65530 4 ≠ 9 := by decide

/-! ## C2: speed handling on a wheel update -/

/-- C2 (amended): with a nonzero event delta and an in-bound revolution delta,
the raw speed is gated, not clamped: when `0 ≤ raw ≤ 100` the rounded speed is
stored and both distance counters accumulate `dist / 1000`; otherwise the
whole contribution (speed, distance, activity) is discarded and only the
shadow counters advance. -/
theorem c2_speed_gate_amended (st : DBState) (data : List ℕ) (dist raw : ℚ)
    (hlen : 7 ≤ data.length) (hev : st.lastWheelEvent ≠ 0)
    (hdiff : 0 < eventDiff16 st.lastWheelEvent (u16le data 5))
    (hrev : wheelRevDiff st.lastWheelRev (u32le data 1) ≤ 1000)
    (hdist : dist = (wheelRevDiff st.lastWheelRev (u32le data 1) : ℚ) * st.wheelCircumference)
    (hraw : raw = dist / ((eventDiff16 st.lastWheelEvent (u16le data 5) : ℚ) / 1024) * 3.6) :
    (0 ≤ raw ∧ raw ≤ 100 →
      wheelStep st data = .cont { st with
        speed := pyRound1 raw,
        distance := st.distance + dist / 1000,
        dailyDistance := st.dailyDistance + dist / 1000,
        lastWheelRev := u32le data 1, lastWheelEvent := u16le data 5 } true) ∧
    (¬ (0 ≤ raw ∧ raw ≤ 100) →
      wheelStep st data =
        .cont { st with lastWheelRev := u32le data 1, lastWheelEvent := u16le data 5 } false) := by
  subst hraw
  subst hdist
  simp only [wheelStep]
  rw [if_pos hlen, if_pos hev, if_pos hdiff, if_neg (not_lt.mpr hrev)]
  constructor
  · intro h
    rw [if_pos h]
  · intro h
    rw [if_neg h]

theorem c2_speed_gate_witness :
    wheelStep { initState 0 with lastWheelEvent := 1024 } (mkWheelFrame 10 2048) =
      .cont { { initState 0 with lastWheelEvent := 1024 } with
        speed := pyRound1 (75456/1000),
        distance := ({ initState 0 with lastWheelEvent := 1024 } : DBState).distance +
          (2096/100 : ℚ) / 1000,
        dailyDistance := ({ initState 0 with lastWheelEvent := 1024 } : DBState).dailyDistance +
          (2096/100 : ℚ) / 1000,
        lastWheelRev := u32le (mkWheelFrame 10 2048) 1,
        lastWheelEvent := u16le (mkWheelFrame 10 2048) 5 } true :=
  (c2_speed_gate_amended { initState 0 with lastWheelEvent := 1024 } (mkWheelFrame 10 2048)
    (2096/100) (75456/1000) (by decide) (by decide) (by decide) (by decide)
    (by norm_num [initState, mkWheelFrame, u32le, byteAt, wheelRevDiff,
      List.getD_cons_zero, List.getD_cons_succ])
    (by norm_num [mkWheelFrame, u16le, byteAt, eventDiff16,
      List.getD_cons_zero, List.getD_cons_succ])).1 (by norm_num)

/-- The contrived state for the C2 counterexample: a wheel circumference of
2.5 m lets a frame hit a raw speed of exactly 240 km/h. -/
def c2State : DBState := { initState 0 with wheelCircumference := 5/2, lastWheelEvent := 1000 }

/-- C2 counterexample: a frame producing a raw speed of exactly 240 km/h
(10 revolutions of a 2.5 m wheel in 0.375 s) leaves the snapshot speed at 0,
not 100.0, and does not accumulate any distance; likewise with the stock
2.096 m circumference an out-of-range raw speed (301.824 km/h) is discarded
rather than clamped. -/
theorem c2_counterexample :
    ((10 : ℚ) * c2State.wheelCircumference) / ((eventDiff16 1000 1384 : ℚ) / 1024) * 3.6 = 240 ∧
    (notificationHandler c2State 0 (mkWheelFrame 10 1384)).speed = 0 ∧
    (notificationHandler c2State 0 (mkWheelFrame 10 1384)).speed ≠ 100 ∧
    (notificationHandler c2State 0 (mkWheelFrame 10 1384)).dailyDistance = 0 ∧
    (notificationHandler c2State 0 (mkWheelFrame 10 1384)).distance = 0 ∧
    (notificationHandler { initState 0 with lastWheelEvent := 1024 } 0
      (mkWheelFrame 20 1536)).speed = 0 ∧
    (notificationHandler { initState 0 with lastWheelEvent := 1024 } 0
      (mkWheelFrame 20 1536)).dailyDistance = 0 := by
  norm_num [notificationHandler, wheelStep, crankStep, activityStep, addCalories,
    checkActivityTimeout, checkDailyReset, initState, c2State, mkWheelFrame, byteAt, u16le, u32le,
    eventDiff16, wheelRevDiff, calculateCalories, metForSpeed, startOfLocalDay,
    List.getD_cons_zero, List.getD_cons_succ,
    show Nat.testBit 1 0 = true from rfl, show Nat.testBit 1 1 = false from rfl]

/-! ## C3: calorie accrual uses a fixed 1-second slice -/

/-- The state for the C3 run: an active session whose previous accumulator
call was 4 seconds ago (`last_activity_check = 0`, the frame arrives at
`now = 4`) with a stored speed of 20 km/h. -/
def c3State : DBState :=
  { initState 0 with speed := 20, isActive := true, activityStartTime := some 0,
                     lastActivityCheck := some 0, lastCrankEvent := 1000 }

/-- C3: on an active frame 4 measured seconds after the previous accumulator
call, the active-time counters grow by the measured 4 seconds, but the
calories added are `_calculate_calories(speed, 1, resistance)` — the fixed
1-second slice (7/45 kcal at 20 km/h, MET 8, 70 kg, 100 %), not the
elapsed-time slice (28/45 kcal) the claim requires. -/
theorem c3_fixed_one_second_tick :
    (notificationHandler c3State 4 (mkCrankFrame 2 2024)).dailyActiveTime = 4 ∧
    (notificationHandler c3State 4 (mkCrankFrame 2 2024)).totalActiveTime = 4 ∧
    (notificationHandler c3State 4 (mkCrankFrame 2 2024)).dailyCalories =
      calculateCalories 70 20 1 100 ∧
    (notificationHandler c3State 4 (mkCrankFrame 2 2024)).totalCalories =
      calculateCalories 70 20 1 100 ∧
    calculateCalories 70 20 1 100 = 7/45 ∧
    calculateCalories 70 20 4 100 = 28/45 ∧
    (7 : ℚ)/45 ≠ 28/45 := by
  norm_num [notificationHandler, wheelStep, crankStep, activityStep, addCalories,
    checkActivityTimeout, checkDailyReset, initState, c3State, mkCrankFrame, byteAt, u16le, u32le,
    eventDiff16, crankRevDiff, calculateCalories, metForSpeed, startOfLocalDay,
    List.getD_cons_zero, List.getD_cons_succ,
    show Nat.testBit 2 0 = false from rfl, show Nat.testBit 2 1 = true from rfl]

/-! ## C4: suspicious revolution jumps -/

/-- C4 (amended): a suspicious wheel delta (> 1000) discards the tick's
distance/speed contribution, advances only the wheel shadow counters and ends
the whole invocation there (no error, but also no crank/activity/rollover
processing); a suspicious crank delta (≥ 100) discards the rotation-count
contribution and advances the crank shadow counters, but the cadence is still
computed and stored from the suspicious delta — it is not discarded. -/
theorem c4_suspicious_jump_amended
    (st : DBState) (now : ℚ) (data : List ℕ)
    (st2 : DBState) (act : Bool) (data2 : List ℕ) (off : ℕ)
    (hflag : Nat.testBit (byteAt data 0) 0 = true)
    (hlen : 7 ≤ data.length)
    (hev : st.lastWheelEvent ≠ 0)
    (hdiff : 0 < eventDiff16 st.lastWheelEvent (u16le data 5))
    (hrev : 1000 < wheelRevDiff st.lastWheelRev (u32le data 1))
    (hlen2 : off + 4 ≤ data2.length)
    (hev2 : st2.lastCrankEvent ≠ 0)
    (hdiff2 : 0 < eventDiff16 st2.lastCrankEvent (u16le data2 (off + 2)))
    (hrev2 : 100 ≤ crankRevDiff st2.lastCrankRev (u16le data2 off)) :
    notificationHandler st now data =
      { st with lastWheelRev := u32le data 1, lastWheelEvent := u16le data 5 } ∧
    crankStep st2 act data2 off =
      .cont { st2 with
        cadence := pyRound1 ((crankRevDiff st2.lastCrankRev (u16le data2 off) : ℚ) /
          ((eventDiff16 st2.lastCrankEvent (u16le data2 (off + 2)) : ℚ) / 1024) * 60),
        lastCrankRev := u16le data2 off, lastCrankEvent := u16le data2 (off + 2) }
        (if 0 < (crankRevDiff st2.lastCrankRev (u16le data2 off) : ℚ) /
            ((eventDiff16 st2.lastCrankEvent (u16le data2 (off + 2)) : ℚ) / 1024) * 60
         then true else act) := by
  constructor
  · have hne : ¬ data.length = 0 := by omega
    have hws : wheelStep st data =
        .done { st with lastWheelRev := u32le data 1, lastWheelEvent := u16le data 5 } := by
      simp only [wheelStep]
      rw [if_pos hlen, if_pos hev, if_pos hdiff, if_pos hrev]
    simp only [notificationHandler]
    rw [if_neg hne, if_pos hflag, hws]
  · simp only [crankStep]
    rw [if_pos hlen2, if_pos hev2, if_pos hdiff2, if_neg (not_lt.mpr hrev2)]

theorem c4_suspicious_jump_witness :
    notificationHandler { initState 0 with lastWheelEvent := 1000 } 0 (mkWheelFrame 2000 1512) =
      { { initState 0 with lastWheelEvent := 1000 } with
        lastWheelRev := u32le (mkWheelFrame 2000 1512) 1,
        lastWheelEvent := u16le (mkWheelFrame 2000 1512) 5 } ∧
    crankStep { initState 0 with lastCrankEvent := 1000 } false (mkCrankFrame 200 2024) 1 =
      .cont { { initState 0 with lastCrankEvent := 1000 } with
        cadence := pyRound1
          ((crankRevDiff ({ initState 0 with lastCrankEvent := 1000 } : DBState).lastCrankRev
              (u16le (mkCrankFrame 200 2024) 1) : ℚ) /
            ((eventDiff16 ({ initState 0 with lastCrankEvent := 1000 } : DBState).lastCrankEvent
              (u16le (mkCrankFrame 200 2024) 3) : ℚ) / 1024) * 60),
        lastCrankRev := u16le (mkCrankFrame 200 2024) 1,
        lastCrankEvent := u16le (mkCrankFrame 200 2024) 3 }
        (if 0 < (crankRevDiff ({ initState 0 with lastCrankEvent := 1000 } : DBState).lastCrankRev
              (u16le (mkCrankFrame 200 2024) 1) : ℚ) /
            ((eventDiff16 ({ initState 0 with lastCrankEvent := 1000 } : DBState).lastCrankEvent
              (u16le (mkCrankFrame 200 2024) 3) : ℚ) / 1024) * 60
         then true else false) :=
  c4_suspicious_jump_amended
    { initState 0 with lastWheelEvent := 1000 } 0 (mkWheelFrame 2000 1512)
    { initState 0 with lastCrankEvent := 1000 } false (mkCrankFrame 200 2024) 1
    (by decide) (by decide) (by decide) (by decide) (by decide)
    (by decide) (by decide) (by decide) (by decide)

/-- C4 counterexample: a crank-only frame with a suspicious delta of 200
revolutions leaves the rotation counters untouched but stores a cadence of
12000 rpm computed from the suspicious delta — the cadence contribution of
the tick is not discarded. -/
theorem c4_counterexample :
    (notificationHandler { initState 0 with lastCrankEvent := 1000 } 0
      (mkCrankFrame 200 2024)).cadence = 12000 ∧
    (notificationHandler { initState 0 with lastCrankEvent := 1000 } 0
      (mkCrankFrame 200 2024)).dailyCrankRotations = 0 ∧
    ({ initState 0 with lastCrankEvent := 1000 } : DBState).cadence = 0 ∧
    crankRevDiff 0 200 = 200 ∧
    (12000 : ℚ) ≠ 0 := by
  have hpr : pyRound1 (12000 : ℚ) = 12000 := by
    rw [pyRound1_eval 12000 120000 (by norm_num) (by norm_num)]
    norm_num
  norm_num [notificationHandler, wheelStep, crankStep, activityStep, addCalories,
    checkActivityTimeout, checkDailyReset, initState, mkCrankFrame, byteAt, u16le, u32le,
    eventDiff16, crankRevDiff, calculateCalories, metForSpeed, startOfLocalDay,
    List.getD_cons_zero, List.getD_cons_succ, hpr,
    show Nat.testBit 2 0 = false from rfl, show Nat.testBit 2 1 = true from rfl]

/-! ## C5: malformed frames -/

/-- C5 (amended): a malformed frame never raises a fatal error, and when the
failure hits the first declared field group the state is left untouched: an
empty buffer, a wheel-flagged frame shorter than 7 bytes, and a crank-only
frame shorter than 5 bytes all leave the accumulator state exactly as it was.
(When a wheel section parses and only the crank fields are truncated, the
already-applied wheel update is retained — see the counterexample.) -/
theorem c5_malformed_frame_amended (st : DBState) (now : ℚ) (data : List ℕ) :
    (data.length = 0 → notificationHandler st now data = st) ∧
    (Nat.testBit (byteAt data 0) 0 = true → data.length < 7 →
      notificationHandler st now data = st) ∧
    (Nat.testBit (byteAt data 0) 0 = false → Nat.testBit (byteAt data 0) 1 = true →
      data.length < 5 → notificationHandler st now data = st) := by
  refine ⟨fun h => ?_, fun hf hl => ?_, fun hf0 hf1 hl => ?_⟩
  · simp only [notificationHandler]
    rw [if_pos h]
  · by_cases hz : data.length = 0
    · simp only [notificationHandler]
      rw [if_pos hz]
    · have hws : wheelStep st data = .done st := by
        simp only [wheelStep]
        rw [if_neg (by omega)]
      simp only [notificationHandler]
      rw [if_neg hz, if_pos hf, hws]
  · by_cases hz : data.length = 0
    · simp only [notificationHandler]
      rw [if_pos hz]
    · have hcs : crankStep st false data 1 = .done st := by
        simp only [crankStep]
        rw [if_neg (by omega)]
      simp only [notificationHandler]
      rw [if_neg hz, hf0, hf1]
      simp only [Bool.false_eq_true, if_false, if_true, hcs]

theorem c5_malformed_frame_witness :
    notificationHandler (initState 0) 0 (1 :: 5 :: []) = initState 0 ∧
    notificationHandler (initState 0) 0 (2 :: 5 :: 5 :: []) = initState 0 :=
  ⟨(c5_malformed_frame_amended (initState 0) 0 (1 :: 5 :: [])).2.1 (by decide) (by decide),
   (c5_malformed_frame_amended (initState 0) 0 (2 :: 5 :: 5 :: [])).2.2
     (by decide) (by decide) (by decide)⟩

/-- The state for the C5 counterexample: both shadow event times are nonzero,
as after a normal combined frame. -/
def c5State : DBState := { initState 0 with lastWheelEvent := 1000, lastCrankEvent := 500 }

/-- C5 counterexample: a frame declaring wheel and crank data (flags 0x03)
whose buffer holds only the wheel fields (7 bytes) is malformed, yet the
wheel update is applied before the crank decode fails: the wheel shadow
counter and both distance counters are modified, contradicting "the
accumulator leaves all state untouched". -/
theorem c5_counterexample :
    (notificationHandler c5State 0 (3 :: 10 :: 0 :: 0 :: 0 :: 232 :: 7 :: [])).lastWheelRev = 10 ∧
    c5State.lastWheelRev = 0 ∧
    (notificationHandler c5State 0
      (3 :: 10 :: 0 :: 0 :: 0 :: 232 :: 7 :: [])).dailyDistance = 2096/100000 ∧
    c5State.dailyDistance = 0 ∧
    (notificationHandler c5State 0 (3 :: 10 :: 0 :: 0 :: 0 :: 232 :: 7 :: [])).distance =
      2096/100000 := by
  norm_num [notificationHandler, wheelStep, crankStep, activityStep, addCalories,
    checkActivityTimeout, checkDailyReset, initState, c5State, byteAt, u16le, u32le,
    eventDiff16, wheelRevDiff, calculateCalories, metForSpeed, startOfLocalDay,
    List.getD_cons_zero, List.getD_cons_succ,
    show Nat.testBit 3 0 = true from rfl, show Nat.testBit 3 1 = true from rfl]

/-! ## Shared facts about the timeout and rollover checks -/

lemma eventDiff16_self (a : ℕ) : eventDiff16 a a = 0 := by simp [eventDiff16]

/-- The inactivity-timeout check never touches the counters or the rollover
marker: it only affects speed, cadence, `is_active` and the activity
bookkeeping fields. -/
lemma checkActivityTimeout_fields (st : DBState) (now : ℚ) :
    (checkActivityTimeout st now).dailyResetTime = st.dailyResetTime ∧
    (checkActivityTimeout st now).distance = st.distance ∧
    (checkActivityTimeout st now).dailyDistance = st.dailyDistance ∧
    (checkActivityTimeout st now).dailyActiveTime = st.dailyActiveTime ∧
    (checkActivityTimeout st now).totalActiveTime = st.totalActiveTime ∧
    (checkActivityTimeout st now).dailyCalories = st.dailyCalories ∧
    (checkActivityTimeout st now).totalCalories = st.totalCalories ∧
    (checkActivityTimeout st now).dailyCrankRotations = st.dailyCrankRotations ∧
    (checkActivityTimeout st now).totalCrankRotations = st.totalCrankRotations := by
  unfold checkActivityTimeout
  split
  · simp
  · split <;> simp

/-- The daily-rollover check never touches speed, cadence, activity flags,
lifetime counters or shadow counters. -/
lemma checkDailyReset_fields (st : DBState) (now : ℚ) :
    (checkDailyReset st now).speed = st.speed ∧
    (checkDailyReset st now).cadence = st.cadence ∧
    (checkDailyReset st now).isActive = st.isActive ∧
    (checkDailyReset st now).activityStartTime = st.activityStartTime ∧
    (checkDailyReset st now).distance = st.distance ∧
    (checkDailyReset st now).totalActiveTime = st.totalActiveTime ∧
    (checkDailyReset st now).totalCalories = st.totalCalories ∧
    (checkDailyReset st now).totalCrankRotations = st.totalCrankRotations := by
  unfold checkDailyReset
  split <;> simp

/-- A flags-0 frame (1 zero byte) carries no wheel or crank data: the handler
just runs the inactivity-timeout check followed by the rollover check. -/
lemma notificationHandler_noData (st : DBState) (now : ℚ) :
    notificationHandler st now (0 :: []) =
      checkDailyReset (checkActivityTimeout st now) now := rfl

/-! ## C6: daily rollover -/

/-- After a rollover the reset marker sits at the start of the current local
day, so a second check with the same `now` can never fire again. -/
lemma checkDailyReset_noRefire (s : DBState) (now : ℚ)
    (h : s.dailyResetTime = startOfLocalDay now) : checkDailyReset s now = s := by
  unfold checkDailyReset
  rw [if_neg]
  rw [h]
  unfold startOfLocalDay
  intro habs
  have hfl := Int.lt_floor_add_one (now / 86400)
  linarith

/-- C6 (amended): on every invocation that runs to completion, when `now` is
past `daily_reset_time + 24h` the four daily counters are zeroed and the
marker moves to the start of the current local day; a second check with the
same `now` does not re-reset (daily values accumulated after the reset
survive); a no-data frame through the full handler shows the zeroing
end-to-end. -/
theorem c6_daily_rollover_amended (st : DBState) (now q : ℚ)
    (h : st.dailyResetTime + 86400 < now) :
    checkDailyReset st now =
      { st with dailyDistance := 0, dailyActiveTime := 0, dailyCalories := 0,
                dailyCrankRotations := 0, dailyResetTime := startOfLocalDay now } ∧
    checkDailyReset { checkDailyReset st now with dailyDistance := q } now =
      { checkDailyReset st now with dailyDistance := q } ∧
    (notificationHandler st now (0 :: [])).dailyDistance = 0 ∧
    (notificationHandler st now (0 :: [])).dailyActiveTime = 0 ∧
    (notificationHandler st now (0 :: [])).dailyCalories = 0 ∧
    (notificationHandler st now (0 :: [])).dailyCrankRotations = 0 := by
  have h1 : checkDailyReset st now =
      { st with dailyDistance := 0, dailyActiveTime := 0, dailyCalories := 0,
                dailyCrankRotations := 0, dailyResetTime := startOfLocalDay now } := by
    unfold checkDailyReset
    rw [if_pos h]
  have hA := checkActivityTimeout_fields st now
  have hfire : (checkActivityTimeout st now).dailyResetTime + 86400 < now := by
    rw [hA.1]; exact h
  have hrun : notificationHandler st now (0 :: []) =
      checkDailyReset (checkActivityTimeout st now) now := notificationHandler_noData st now
  refine ⟨h1, checkDailyReset_noRefire _ now (by rw [h1]), ?_, ?_, ?_, ?_⟩ <;>
    rw [hrun] <;> unfold checkDailyReset <;> rw [if_pos hfire]

/-- The witness state for C6: nonzero daily counters and the reset marker at
the epoch midnight of day D; the call happens at D+1 00:00:11. -/
def c6WitState : DBState :=
  { initState 0 with dailyDistance := 5, dailyActiveTime := 6, dailyCalories := 7,
                     dailyCrankRotations := 8 }

theorem c6_daily_rollover_witness :
    checkDailyReset c6WitState 86411 =
      { c6WitState with dailyDistance := 0, dailyActiveTime := 0, dailyCalories := 0,
                        dailyCrankRotations := 0, dailyResetTime := startOfLocalDay 86411 } ∧
    checkDailyReset { checkDailyReset c6WitState 86411 with dailyDistance := 1 } 86411 =
      { checkDailyReset c6WitState 86411 with dailyDistance := 1 } ∧
    (notificationHandler c6WitState 86411 (0 :: [])).dailyDistance = 0 ∧
    (notificationHandler c6WitState 86411 (0 :: [])).dailyActiveTime = 0 ∧
    (notificationHandler c6WitState 86411 (0 :: [])).dailyCalories = 0 ∧
    (notificationHandler c6WitState 86411 (0 :: [])).dailyCrankRotations = 0 :=
  c6_daily_rollover_amended c6WitState 86411 1 (by norm_num [c6WitState, initState])

/-- The state for the C6 counterexample: a nonzero daily distance, a due
rollover, and a wheel shadow state that makes the incoming frame suspicious. -/
def c6State : DBState :=
  { initState 0 with lastWheelEvent := 1000, dailyDistance := 5 }

/-- C6 counterexample: with the rollover due (`now = 86401 >` reset + 24h), an
invocation carrying a suspicious wheel jump returns before `_check_daily_reset`
runs, so the daily counters are not zeroed — the rollover check does not run
on every accumulator invocation. -/
theorem c6_counterexample :
    c6State.dailyResetTime + 86400 < 86401 ∧
    (notificationHandler c6State 86401 (mkWheelFrame 2000 1512)).dailyDistance = 5 ∧
    (5 : ℚ) ≠ 0 := by
  norm_num [notificationHandler, wheelStep, crankStep, activityStep, addCalories,
    checkActivityTimeout, checkDailyReset, initState, c6State, mkWheelFrame, byteAt, u16le, u32le,
    eventDiff16, wheelRevDiff, calculateCalories, metForSpeed, startOfLocalDay,
    List.getD_cons_zero, List.getD_cons_succ,
    show Nat.testBit 1 0 = true from rfl, show Nat.testBit 1 1 = false from rfl]

/-! ## C7: inactivity timeout -/

/-- C7 (amended): on every invocation that completes frame processing without
detecting fresh activity (in particular one carrying a no-data frame), when
more than 3 seconds have elapsed since `last_activity_check`, speed and
cadence are forced to 0, `is_active` is cleared and `activity_start_time` is
cleared. -/
theorem c7_inactivity_timeout_amended (st : DBState) (t now : ℚ)
    (h1 : st.lastActivityCheck = some t) (h2 : 3 < now - t) :
    checkActivityTimeout st now =
      { st with speed := 0, cadence := 0, isActive := false, activityStartTime := none } ∧
    (notificationHandler st now (0 :: [])).speed = 0 ∧
    (notificationHandler st now (0 :: [])).cadence = 0 ∧
    (notificationHandler st now (0 :: [])).isActive = false ∧
    (notificationHandler st now (0 :: [])).activityStartTime = none := by
  have hto : checkActivityTimeout st now =
      { st with speed := 0, cadence := 0, isActive := false, activityStartTime := none } := by
    simp only [checkActivityTimeout, h1]
    rw [if_pos h2]
  have hD := checkDailyReset_fields (checkActivityTimeout st now) now
  have hrun : notificationHandler st now (0 :: []) =
      checkDailyReset (checkActivityTimeout st now) now := notificationHandler_noData st now
  exact ⟨hto, by rw [hrun, hD.1, hto], by rw [hrun, hD.2.1, hto],
    by rw [hrun, hD.2.2.1, hto], by rw [hrun, hD.2.2.2.1, hto]⟩

/-- The witness state for C7: an active session whose last activity check was
at `t0 = 0`; the no-activity call arrives at `t0 + 4`. -/
def c7WitState : DBState :=
  { initState 0 with speed := 9, cadence := 4, isActive := true,
                     activityStartTime := some 0, lastActivityCheck := some 0 }

theorem c7_inactivity_timeout_witness :
    checkActivityTimeout c7WitState 4 =
      { c7WitState with speed := 0, cadence := 0, isActive := false,
                        activityStartTime := none } ∧
    (notificationHandler c7WitState 4 (0 :: [])).speed = 0 ∧
    (notificationHandler c7WitState 4 (0 :: [])).cadence = 0 ∧
    (notificationHandler c7WitState 4 (0 :: [])).isActive = false ∧
    (notificationHandler c7WitState 4 (0 :: [])).activityStartTime = none :=
  c7_inactivity_timeout_amended c7WitState 0 4 rfl (by norm_num)

/-- The state for the C7 counterexample: an active session, a stale activity
check (7 seconds earlier than `now = 10`) and a wheel shadow state making the
incoming frame suspicious. -/
def c7State : DBState :=
  { initState 0 with speed := 5, cadence := 3, isActive := true,
                     lastActivityCheck := some 0, lastWheelEvent := 1000 }

/-- C7 counterexample: an invocation that detects no fresh activity (it ends
at the suspicious-wheel early return) with more than 3 seconds elapsed since
`last_activity_check` leaves speed, cadence and `is_active` untouched — the
timeout is not applied on every no-activity invocation. -/
theorem c7_counterexample :
    (3 : ℚ) < 10 - 0 ∧
    c7State.lastActivityCheck = some 0 ∧
    (notificationHandler c7State 10 (mkWheelFrame 2000 1512)).speed = 5 ∧
    (notificationHandler c7State 10 (mkWheelFrame 2000 1512)).cadence = 3 ∧
    (notificationHandler c7State 10 (mkWheelFrame 2000 1512)).isActive = true ∧
    (5 : ℚ) ≠ 0 := by
  norm_num [notificationHandler, wheelStep, crankStep, activityStep, addCalories,
    checkActivityTimeout, checkDailyReset, initState, c7State, mkWheelFrame, byteAt, u16le, u32le,
    eventDiff16, wheelRevDiff, calculateCalories, metForSpeed, startOfLocalDay,
    List.getD_cons_zero, List.getD_cons_succ,
    show Nat.testBit 1 0 = true from rfl, show Nat.testBit 1 1 = false from rfl]

/-! ## C8: duplicate notifications -/

/-- C8 (amended): a duplicate frame — identical wheel and crank revolution
counts and event times — leaves the entire state unchanged, provided the call
is within the 3-second activity window and no daily rollover is due; the
counters the frame could touch are skipped unconditionally, but the
inactivity timeout and the rollover still apply to the invocation as a whole
(see the counterexample). -/
theorem c8_duplicate_frame_amended (st : DBState) (t now : ℚ)
    (hw : st.lastWheelRev < 4294967296) (hwe : st.lastWheelEvent < 65536)
    (hc : st.lastCrankRev < 65536) (hce : st.lastCrankEvent < 65536)
    (hac : st.lastActivityCheck = some t) (hwin : now - t ≤ 3)
    (hres : now ≤ st.dailyResetTime + 86400) :
    notificationHandler st now
      (mkCscFrame st.lastWheelRev st.lastWheelEvent st.lastCrankRev st.lastCrankEvent) = st := by
  have hws : wheelStep st
      (mkCscFrame st.lastWheelRev st.lastWheelEvent st.lastCrankRev st.lastCrankEvent) =
      .cont st false := by
    simp only [wheelStep]
    rw [if_pos (show 7 ≤ (mkCscFrame st.lastWheelRev st.lastWheelEvent st.lastCrankRev
      st.lastCrankEvent).length by simp [mkCscFrame])]
    rw [u32le_mkCscFrame _ _ _ _ hw, u16le_mkCscFrame_event _ _ _ _ hwe]
    by_cases he : st.lastWheelEvent ≠ 0
    · rw [if_pos he, eventDiff16_self, if_neg (by norm_num)]
    · rw [if_neg he]
  have hcs : crankStep st false
      (mkCscFrame st.lastWheelRev st.lastWheelEvent st.lastCrankRev st.lastCrankEvent) 7 =
      .cont st false := by
    simp only [crankStep]
    rw [if_pos (show 7 + 4 ≤ (mkCscFrame st.lastWheelRev st.lastWheelEvent st.lastCrankRev
      st.lastCrankEvent).length by simp [mkCscFrame])]
    rw [u16le_mkCscFrame_crank _ _ _ _ hc, u16le_mkCscFrame_crankEvent _ _ _ _ hce]
    by_cases he : st.lastCrankEvent ≠ 0
    · rw [if_pos he, eventDiff16_self, if_neg (by norm_num)]
    · rw [if_neg he]
  have hat : checkActivityTimeout st now = st := by
    simp only [checkActivityTimeout, hac]
    rw [if_neg (not_lt.mpr hwin)]
  have hdr : checkDailyReset st now = st := if_neg (not_lt.mpr hres)
  have hbyte : byteAt (mkCscFrame st.lastWheelRev st.lastWheelEvent st.lastCrankRev
      st.lastCrankEvent) 0 = 3 := rfl
  simp only [notificationHandler, hws, hcs, activityStep, hat, hdr, mkCscFrame_length, hbyte,
    show Nat.testBit 3 0 = true by decide, show Nat.testBit 3 1 = true by decide]
  simp [hws, hcs, hat, hdr]

/-- The witness state for C8: a mid-session state with nonzero shadow counters
and a recent activity check. -/
def c8WitState : DBState :=
  { initState 0 with lastWheelRev := 7, lastWheelEvent := 500, lastCrankRev := 8,
                     lastCrankEvent := 600, lastActivityCheck := some 0 }

theorem c8_duplicate_frame_witness :
    notificationHandler c8WitState 2
      (mkCscFrame c8WitState.lastWheelRev c8WitState.lastWheelEvent c8WitState.lastCrankRev
        c8WitState.lastCrankEvent) = c8WitState :=
  c8_duplicate_frame_amended c8WitState 0 2 (by decide) (by decide) (by decide) (by decide)
    rfl (by norm_num) (by norm_num [c8WitState, initState])

/-- The state for the C8 counterexample: an active session with speed 9,
stale activity check, and a nonzero daily distance. -/
def c8State : DBState :=
  { initState 0 with lastWheelRev := 7, lastWheelEvent := 500, lastCrankRev := 8,
                     lastCrankEvent := 600, lastActivityCheck := some 0, speed := 9,
                     isActive := true, dailyDistance := 3 }

/-- C8 counterexample: applying a frame with event timestamps identical to the
previous one does not always leave the snapshot speed and daily counters
unchanged: 4 seconds after the last activity check the inactivity timeout
zeroes the speed, and with a rollover due the daily distance is zeroed. -/
theorem c8_counterexample :
    (notificationHandler c8State 4 (mkCscFrame 7 500 8 600)).speed = 0 ∧
    c8State.speed = 9 ∧
    (notificationHandler c8State 90000 (mkCscFrame 7 500 8 600)).dailyDistance = 0 ∧
    c8State.dailyDistance = 3 ∧
    (9 : ℚ) ≠ 0 ∧ (3 : ℚ) ≠ 0 := by
  norm_num [notificationHandler, wheelStep, crankStep, activityStep, addCalories,
    checkActivityTimeout, checkDailyReset, initState, c8State, mkCscFrame, byteAt, u16le, u32le,
    eventDiff16, wheelRevDiff, crankRevDiff, calculateCalories, metForSpeed, startOfLocalDay,
    List.getD_cons_zero, List.getD_cons_succ,
    show Nat.testBit 3 0 = true from rfl, show Nat.testBit 3 1 = true from rfl]

/-! ## C9: end-to-end wheel scenario -/

/-- C9 counterexample: with the initial shadow state `(0, 0)`, a second frame
with `wheel_event = 1024` can only mean "1 second elapsed" if the first frame
carried event time 0 — but then the first frame leaves `last_wheel_event = 0`
and the second frame is itself treated as first-ever: no delta, no distance,
no speed. -/
theorem c9_counterexample :
    (notificationHandler (initState 0) 0 (mkWheelFrame 0 0)).lastWheelEvent = 0 ∧
    (notificationHandler (notificationHandler (initState 0) 0 (mkWheelFrame 0 0)) 1
      (mkWheelFrame 10 1024)).dailyDistance = 0 ∧
    (notificationHandler (notificationHandler (initState 0) 0 (mkWheelFrame 0 0)) 1
      (mkWheelFrame 10 1024)).speed = 0 ∧
    (0 : ℚ) ≠ 2096/100000 := by
  norm_num [notificationHandler, wheelStep, crankStep, activityStep, addCalories,
    checkActivityTimeout, checkDailyReset, initState, mkWheelFrame, byteAt, u16le, u32le,
    eventDiff16, wheelRevDiff, calculateCalories, metForSpeed, startOfLocalDay,
    List.getD_cons_zero, List.getD_cons_succ,
    show Nat.testBit 1 0 = true from rfl, show Nat.testBit 1 1 = false from rfl]

/-- C9 (amended): the first frame must carry a nonzero wheel event time. With
wheel circumference 2.096 m, a first frame `(wheel_revs = 0, wheel_event =
1024)` and a second frame `(10, 2048)` — 1 second elapsed — the delta is 10
revolutions, the distance delta 20.96 m, the raw speed 75.456 km/h (stored
rounded as 75.5, kept since below the 100 km/h bound), and distance and
daily_distance grow by 0.02096 km. -/
theorem c9_end_to_end_amended :
    (notificationHandler (initState 0) 0 (mkWheelFrame 0 1024)).lastWheelEvent = 1024 ∧
    (notificationHandler (initState 0) 0 (mkWheelFrame 0 1024)).dailyDistance = 0 ∧
    wheelRevDiff 0 10 = 10 ∧
    (10 : ℚ) * 2.096 = 2096/100 ∧
    ((10 : ℚ) * 2.096) / ((eventDiff16 1024 2048 : ℚ) / 1024) * 3.6 = 75456/1000 ∧
    pyRound1 (75456/1000) = 755/10 ∧
    (notificationHandler (notificationHandler (initState 0) 0 (mkWheelFrame 0 1024)) 1
      (mkWheelFrame 10 2048)).speed = 755/10 ∧
    (notificationHandler (notificationHandler (initState 0) 0 (mkWheelFrame 0 1024)) 1
      (mkWheelFrame 10 2048)).distance = 2096/100000 ∧
    (notificationHandler (notificationHandler (initState 0) 0 (mkWheelFrame 0 1024)) 1
      (mkWheelFrame 10 2048)).dailyDistance = 2096/100000 := by
  have hpr : pyRound1 (9432/125 : ℚ) = 755/10 := by
    rw [pyRound1_eval (9432/125) 755 (by norm_num) (by norm_num)]
    norm_num
  norm_num [notificationHandler, wheelStep, crankStep, activityStep, addCalories,
    checkActivityTimeout, checkDailyReset, initState, mkWheelFrame, byteAt, u16le, u32le,
    eventDiff16, wheelRevDiff, calculateCalories, metForSpeed, startOfLocalDay,
    List.getD_cons_zero, List.getD_cons_succ, hpr,
    show Nat.testBit 1 0 = true from rfl, show Nat.testBit 1 1 = false from rfl]

/-! ## C10: daily and lifetime counters move in step -/

lemma StepResult.state_done (st : DBState) : (StepResult.done st).state = st := rfl

lemma StepResult.state_cont (st : DBState) (b : Bool) : (StepResult.cont st b).state = st := rfl

/-- Each daily counter and its lifetime counterpart have moved by the same
amount between the two states, and the rollover marker is unchanged. -/
def pairedDeltas (st s : DBState) : Prop :=
  s.distance - st.distance = s.dailyDistance - st.dailyDistance ∧
  s.totalCrankRotations - st.totalCrankRotations =
    s.dailyCrankRotations - st.dailyCrankRotations ∧
  s.totalActiveTime - st.totalActiveTime = s.dailyActiveTime - st.dailyActiveTime ∧
  s.totalCalories - st.totalCalories = s.dailyCalories - st.dailyCalories ∧
  s.dailyResetTime = st.dailyResetTime

lemma pairedDeltas_refl (st : DBState) : pairedDeltas st st :=
  ⟨by ring, by ring, by ring, by ring, rfl⟩

lemma pairedDeltas_trans (a b c : DBState) (h1 : pairedDeltas a b) (h2 : pairedDeltas b c) :
    pairedDeltas a c := by
  obtain ⟨x1, x2, x3, x4, x5⟩ := h1
  obtain ⟨y1, y2, y3, y4, y5⟩ := h2
  exact ⟨by linarith, by linarith, by linarith, by linarith, by rw [y5, x5]⟩

/-- The wheel section moves `distance` and `daily_distance` by the same
amount and leaves the other counter pairs and the rollover marker alone. -/
lemma wheelStep_pairedDeltas (st : DBState) (data : List ℕ) :
    pairedDeltas st (wheelStep st data).state := by
  simp only [wheelStep, apply_ite StepResult.state, StepResult.state_done, StepResult.state_cont]
  unfold pairedDeltas
  repeat' split
  all_goals exact ⟨by simp, by simp, by simp, by simp, by simp⟩

/-- The crank section moves the two rotation counters by the same amount and
leaves the other counter pairs and the rollover marker alone. -/
lemma crankStep_pairedDeltas (st : DBState) (act : Bool) (data : List ℕ) (off : ℕ) :
    pairedDeltas st (crankStep st act data off).state := by
  simp only [crankStep, apply_ite StepResult.state, StepResult.state_done, StepResult.state_cont]
  unfold pairedDeltas
  repeat' split
  all_goals exact ⟨by simp, by simp, by simp, by simp, by simp⟩

/-- The activity section moves the two active-time counters and the two
calorie counters by equal amounts each. -/
lemma activityStep_pairedDeltas (st : DBState) (act : Bool) (now : ℚ) :
    pairedDeltas st (activityStep st act now).state := by
  have hcat : pairedDeltas st (checkActivityTimeout st now) := by
    obtain ⟨f1, f2, f3, f4, f5, f6, f7, f8, f9⟩ := checkActivityTimeout_fields st now
    exact ⟨by rw [f2, f3]; ring, by rw [f9, f8]; ring, by rw [f5, f4]; ring,
      by rw [f7, f6]; ring, f1⟩
  have hcal : ∀ s : DBState, pairedDeltas s (addCalories s) := by
    intro s
    unfold addCalories
    split
    · exact ⟨by simp, by simp, by simp, by simp, by simp⟩
    · exact pairedDeltas_refl s
  cases act
  · simpa only [activityStep, Bool.false_eq_true, if_false, StepResult.state_cont] using hcat
  · rcases hA : st.activityStartTime with _ | v
    · simp only [activityStep, if_true, hA, StepResult.state_cont]
      refine pairedDeltas_trans st _ _ ?_ (hcal _)
      exact ⟨by simp, by simp, by simp, by simp, by simp⟩
    · rcases hC : st.lastActivityCheck with _ | t0
      · simp only [activityStep, if_true, hA, hC, StepResult.state_done]
        exact ⟨by simp, by simp, by simp, by simp, by simp⟩
      · simp only [activityStep, if_true, hA, hC, StepResult.state_cont]
        refine pairedDeltas_trans st _ _ ?_ (hcal _)
        exact ⟨by simp, by simp, by simp, by simp, by simp⟩

lemma pairedDeltas_ite (st : DBState) (c : Prop) [Decidable c] (a b r : StepResult)
    (ha : pairedDeltas st a.state) (hb : pairedDeltas st b.state)
    (h : (if c then a else b) = r) : pairedDeltas st r.state := by
  split at h <;> subst h
  · exact ha
  · exact hb

/-- C10: in any single handler invocation in which the daily rollover cannot
fire, distance/daily_distance, total/daily crank rotations, total/daily
active time and total/daily calories each change by exactly the same amount. -/
theorem c10_parallel_counters (st : DBState) (now : ℚ) (data : List ℕ)
    (hres : now ≤ st.dailyResetTime + 86400) :
    (notificationHandler st now data).distance - st.distance =
      (notificationHandler st now data).dailyDistance - st.dailyDistance ∧
    (notificationHandler st now data).totalCrankRotations - st.totalCrankRotations =
      (notificationHandler st now data).dailyCrankRotations - st.dailyCrankRotations ∧
    (notificationHandler st now data).totalActiveTime - st.totalActiveTime =
      (notificationHandler st now data).dailyActiveTime - st.dailyActiveTime ∧
    (notificationHandler st now data).totalCalories - st.totalCalories =
      (notificationHandler st now data).dailyCalories - st.dailyCalories := by
  suffices h : pairedDeltas st (notificationHandler st now data) from
    ⟨h.1, h.2.1, h.2.2.1, h.2.2.2.1⟩
  simp only [notificationHandler]
  split
  · exact pairedDeltas_refl st
  · split
    next s hq =>
      exact pairedDeltas_ite st _ _ _ _ (wheelStep_pairedDeltas st data)
        (show pairedDeltas st (StepResult.cont st false).state from pairedDeltas_refl st) hq
    next s1 a1 hq =>
      have h1 : pairedDeltas st s1 := pairedDeltas_ite st _ _ _ _
        (wheelStep_pairedDeltas st data)
        (show pairedDeltas st (StepResult.cont st false).state from pairedDeltas_refl st) hq
      split
      next s hq2 =>
        exact pairedDeltas_trans st s1 s h1 (pairedDeltas_ite s1 _ _ _ _
          (crankStep_pairedDeltas s1 a1 data _)
          (show pairedDeltas s1 (StepResult.cont s1 a1).state from pairedDeltas_refl s1) hq2)
      next s2 a2 hq2 =>
        have h2 : pairedDeltas s1 s2 := pairedDeltas_ite s1 _ _ _ _
          (crankStep_pairedDeltas s1 a1 data _)
          (show pairedDeltas s1 (StepResult.cont s1 a1).state from pairedDeltas_refl s1) hq2
        split
        next s hq3 =>
          have h3 : pairedDeltas s2 s := by
            have ha := activityStep_pairedDeltas s2 a2 now
            rw [hq3] at ha
            exact ha
          exact pairedDeltas_trans st s1 s h1 (pairedDeltas_trans s1 s2 s h2 h3)
        next s3 a3 hq3 =>
          have h3 : pairedDeltas s2 s3 := by
            have ha := activityStep_pairedDeltas s2 a2 now
            rw [hq3] at ha
            exact ha
          have hP : pairedDeltas st s3 :=
            pairedDeltas_trans st s1 s3 h1 (pairedDeltas_trans s1 s2 s3 h2 h3)
          have hdr : checkDailyReset s3 now = s3 := by
            unfold checkDailyReset
            rw [if_neg]
            rw [hP.2.2.2.2]
            exact not_lt.mpr hres
          rw [hdr]
          exact hP

theorem c10_parallel_counters_witness :
    (notificationHandler (initState 0) 5 (mkCrankFrame 2 2024)).distance -
        (initState 0).distance =
      (notificationHandler (initState 0) 5 (mkCrankFrame 2 2024)).dailyDistance -
        (initState 0).dailyDistance ∧
    (notificationHandler (initState 0) 5 (mkCrankFrame 2 2024)).totalCrankRotations -
        (initState 0).totalCrankRotations =
      (notificationHandler (initState 0) 5 (mkCrankFrame 2 2024)).dailyCrankRotations -
        (initState 0).dailyCrankRotations ∧
    (notificationHandler (initState 0) 5 (mkCrankFrame 2 2024)).totalActiveTime -
        (initState 0).totalActiveTime =
      (notificationHandler (initState 0) 5 (mkCrankFrame 2 2024)).dailyActiveTime -
        (initState 0).dailyActiveTime ∧
    (notificationHandler (initState 0) 5 (mkCrankFrame 2 2024)).totalCalories -
        (initState 0).totalCalories =
      (notificationHandler (initState 0) 5 (mkCrankFrame 2 2024)).dailyCalories -
        (initState 0).dailyCalories :=
  c10_parallel_counters (initState 0) 5 (mkCrankFrame 2 2024) (by norm_num [initState])
